import Mathlib

/-!
# Verification of the `zep_python.models` data model

A shallow embedding of `src/zep_python/models.py`: the eight pydantic-v1
entity classes (`Session`, `Summary`, `Message`, `Memory`,
`MemorySearchPayload`, `MemorySearchResult`, `Document`,
`DocumentCollection`), their serialization to a wire mapping
(pydantic's `.dict()`, exposed as `to_dict` on several classes) and their
construction from a wire mapping (pydantic's `Model(**mapping)`
validation).

Modelling conventions:
* Wire values (JSON-compatible: §6 of the spec) are the inductive `JValue`,
  with explicit list types `JArr`/`JObj` so that all recursion is
  structural.  Python floats are modelled as rationals: the code only
  stores and forwards them, never computes with them.
* Run-time Python values produced by `.dict()` are `PyVal`: the plain
  JSON-compatible values plus typed entity objects (`msgObj`, `sumObj`),
  which pydantic's `.dict()` is supposed to flatten away recursively.
* pydantic-v1 field semantics, embedded faithfully:
  - a field annotated `Optional[X]` with no explicit default is optional
    with implicit default `None`;
  - `Field(<positional value>)` declares a *default*, so the field is NOT
    required, and pydantic v1 does not validate defaults: a declared
    default of the wrong type (the placeholder strings on
    `Summary.token_count` etc.) is stored as-is.  `Summary.token_count` is
    therefore `Int ⊕ String`: `.inl` for a validated integer, `.inr` for
    the unvalidated placeholder-string default.
  - a present value is validated with pydantic v1's lenient coercions on
    the JSON-compatible wire fragment (`str` accepts numbers, `int`
    accepts bools and numeric strings); a missing value with no default
    is a `missingRequired` error.
-/

set_option linter.unusedVariables false

mutual

/-- A JSON-compatible wire value (string-keyed mappings, sequences,
strings, integers, floats-as-rationals, booleans, null): the value type
of the wire mappings of §6 and of every `metadata` field. -/
inductive JValue where
  | null : JValue
  | bool (b : Bool) : JValue
  | int (n : Int) : JValue
  | float (q : ℚ) : JValue
  | str (s : String) : JValue
  | arr (xs : JArr) : JValue
  | obj (kvs : JObj) : JValue
deriving DecidableEq

inductive JArr where
  | nil : JArr
  | cons (hd : JValue) (tl : JArr) : JArr
deriving DecidableEq

inductive JObj where
  | nil : JObj
  | cons (k : String) (v : JValue) (tl : JObj) : JObj
deriving DecidableEq

end

/-- `Summary` from `models.py`: every field is declared with a
placeholder-string `Field(...)` default, so in pydantic v1 none is truly
required.  `token_count : int` can hold the unvalidated string default
(`Sum.inr`) or a validated integer (`Sum.inl`). -/
structure Summary where
  uuid : String := "A uuid is required"
  created_at : String := "A created_at is required"
  content : String := "Content is required"
  recent_message_uuid : String := "A recent_message_uuid is required"
  token_count : Int ⊕ String := Sum.inr "A token_count is required"
deriving DecidableEq

/-- `Message` from `models.py`: `role` and `content` have
placeholder-string defaults (type `str`, so the default is type-correct
but silently masks a missing field); the rest default to `None`. -/
structure Message where
  role : String := "A role is required"
  content : String := "Content is required"
  uuid : Option String := none
  created_at : Option String := none
  token_count : Option Int := none
  metadata : Option JObj := none
deriving DecidableEq

/-- `Memory` from `models.py`: `messages` defaults to the empty list,
everything else to `None`. -/
structure Memory where
  messages : List Message := []
  metadata : Option JObj := none
  summary : Option Summary := none
  uuid : Option String := none
  created_at : Option String := none
  token_count : Option Int := none
deriving DecidableEq

/-- `Session` from `models.py`: `session_id` and `metadata` have no
default and are required; the `Optional[str]` server fields get pydantic
v1's implicit `None` default. -/
structure Session where
  uuid : Option String := none
  created_at : Option String := none
  updated_at : Option String := none
  deleted_at : Option String := none
  session_id : String
  metadata : JObj
deriving DecidableEq

/-- `MemorySearchPayload` from `models.py`: `text` has a
placeholder-string default; `metadata` defaults to `None`. -/
structure MemorySearchPayload where
  text : String := "A text is required"
  metadata : Option JObj := none
deriving DecidableEq

/-- `MemorySearchResult` from `models.py`: all four fields default to
`None`; `message` is a loose mapping, not a typed `Message`. -/
structure MemorySearchResult where
  message : Option JObj := none
  metadata : Option JObj := none
  summary : Option String := none
  dist : Option ℚ := none
deriving DecidableEq

/-- `Document` from `models.py`: all fields optional; `metadata` has
`default_factory=dict`, i.e. defaults to `some JObj.nil` (an explicit
empty mapping), not `none`. -/
structure Document where
  uuid : Option String := none
  created_at : Option String := none
  updated_at : Option String := none
  deleted_at : Option String := none
  document_id : Option String := none
  content : Option String := none
  metadata : Option JObj := some JObj.nil
  embedding : Option (List ℚ) := none
deriving DecidableEq

/-- `DocumentCollection` from `models.py`: `name` is the only required
field; `metadata` has `default_factory=dict`. -/
structure DocumentCollection where
  created_at : Option String := none
  updated_at : Option String := none
  deleted_at : Option String := none
  name : String
  description : Option String := none
  metadata : Option JObj := some JObj.nil
  embedding_model_name : Option String := none
  embedding_dimensions : Option Int := none
  distance_function : Option String := none
  is_normalized : Option Bool := none
deriving DecidableEq

mutual

/-- A run-time Python value as produced by pydantic `.dict()` or fed to
`Model(**mapping)`: the JSON-compatible values plus typed entity objects
(`Message`/`Summary` instances), which serialization must flatten. -/
inductive PyVal where
  | none : PyVal
  | bool (b : Bool) : PyVal
  | int (n : Int) : PyVal
  | float (q : ℚ) : PyVal
  | str (s : String) : PyVal
  | list (xs : PyList) : PyVal
  | dict (kvs : PyDict) : PyVal
  | msgObj (m : Message) : PyVal
  | sumObj (s : Summary) : PyVal
deriving DecidableEq

inductive PyList where
  | nil : PyList
  | cons (hd : PyVal) (tl : PyList) : PyList
deriving DecidableEq

inductive PyDict where
  | nil : PyDict
  | cons (k : String) (v : PyVal) (tl : PyDict) : PyDict
deriving DecidableEq

end

/-- Key lookup in a Python dict (keys are unique in a Python dict, so
first match is the value). -/
def PyDict.lookup (k : String) : PyDict → Option PyVal
  | .nil => Option.none
  | .cons k' v t => if k' = k then some v else t.lookup k

mutual

/-- Embed a wire value into the run-time value type. -/
def JValue.toPy : JValue → PyVal
  | .null => .none
  | .bool b => .bool b
  | .int n => .int n
  | .float q => .float q
  | .str s => .str s
  | .arr xs => .list xs.toPy
  | .obj kvs => .dict kvs.toPy

def JArr.toPy : JArr → PyList
  | .nil => .nil
  | .cons h t => .cons h.toPy t.toPy

def JObj.toPy : JObj → PyDict
  | .nil => .nil
  | .cons k v t => .cons k v.toPy t.toPy

end

mutual

/-- Read a run-time value back as a JSON-compatible wire value; fails on
typed entity objects. -/
def PyVal.toJ : PyVal → Option JValue
  | .none => some .null
  | .bool b => some (.bool b)
  | .int n => some (.int n)
  | .float q => some (.float q)
  | .str s => some (.str s)
  | .list xs => xs.toJ.map .arr
  | .dict kvs => kvs.toJ.map .obj
  | .msgObj _ => Option.none
  | .sumObj _ => Option.none

def PyList.toJ : PyList → Option JArr
  | .nil => some .nil
  | .cons h t =>
    match h.toJ, t.toJ with
    | some j, some js => some (.cons j js)
    | _, _ => Option.none

def PyDict.toJ : PyDict → Option JObj
  | .nil => some .nil
  | .cons k v t =>
    match v.toJ, t.toJ with
    | some j, some js => some (.cons k j js)
    | _, _ => Option.none

end

mutual

/-- `true` iff the value contains no typed entity object at any depth:
it is a plain (directly wire-transmissible) structure. -/
def PyVal.isPlain : PyVal → Bool
  | .list xs => xs.isPlain
  | .dict kvs => kvs.isPlain
  | .msgObj _ => false
  | .sumObj _ => false
  | _ => true

def PyList.isPlain : PyList → Bool
  | .nil => true
  | .cons h t => h.isPlain && t.isPlain

def PyDict.isPlain : PyDict → Bool
  | .nil => true
  | .cons _ v t => v.isPlain && t.isPlain

end

/-- A pydantic `ValidationError`, reduced to the per-field error kinds of
§7: a required field absent, or a present value of the wrong type. -/
inductive FieldError where
  | missingRequired (entity fld : String) : FieldError
  | typeMismatch (entity fld : String) : FieldError
deriving DecidableEq

/-! ## Field readers

`Model(**mapping)` validation, one field at a time.  Each reader takes the
result of looking the field's key up in the input mapping (`none` when the
key is absent).  Present values are validated with pydantic v1's coercions
on the JSON-compatible wire fragment; values outside that fragment (entity
objects where a scalar is expected, etc.) are type errors.  Absent keys
fall back to the field's declared default, or fail for a truly required
field (no default). -/

/-- Validate a present value for a `str` field. -/
def readStrVal (e f : String) : PyVal → Except FieldError String
  | .str s => .ok s
  | _ => .error (.typeMismatch e f)

/-- Validate a present value for an `int` field (pydantic v1 coerces
bools and integer-literal strings). -/
def readIntVal (e f : String) : PyVal → Except FieldError Int
  | .int n => .ok n
  | .bool b => .ok (if b then 1 else 0)
  | .str s =>
    match s.toInt? with
    | some n => .ok n
    | Option.none => .error (.typeMismatch e f)
  | _ => .error (.typeMismatch e f)

/-- Validate a present value for a `float` field (ints and bools widen). -/
def readFloatVal (e f : String) : PyVal → Except FieldError ℚ
  | .float q => .ok q
  | .int n => .ok (n : ℚ)
  | .bool b => .ok (if b then 1 else 0)
  | _ => .error (.typeMismatch e f)

/-- Validate a present value for a `bool` field (0/1 ints coerce). -/
def readBoolVal (e f : String) : PyVal → Except FieldError Bool
  | .bool b => .ok b
  | .int n =>
    if n = 0 then .ok false
    else if n = 1 then .ok true
    else .error (.typeMismatch e f)
  | _ => .error (.typeMismatch e f)

/-- Validate a present value for a `Dict[str, Any]` field: any
string-keyed mapping of wire values. -/
def readMetaVal (e f : String) : PyVal → Except FieldError JObj
  | .dict kvs =>
    match kvs.toJ with
    | some o => .ok o
    | Option.none => .error (.typeMismatch e f)
  | _ => .error (.typeMismatch e f)

/-- A field with no default: an absent key is a `missingRequired` error. -/
def readReq {α : Type} (e f : String) (rd : PyVal → Except FieldError α) :
    Option PyVal → Except FieldError α
  | Option.none => .error (.missingRequired e f)
  | some v => rd v

/-- A field with a declared default: pydantic v1 substitutes the default
for an absent key WITHOUT validating it. -/
def readWithDefault {α : Type} (d : α) (rd : PyVal → Except FieldError α) :
    Option PyVal → Except FieldError α
  | Option.none => .ok d
  | some v => rd v

/-- An `Optional[X]` field: absent key yields the declared default
(implicitly `None`, or `{}` for `default_factory=dict`); an explicit
`None` stays `None`; otherwise validate as `X`. -/
def readOptWith {α : Type} (d : Option α) (rd : PyVal → Except FieldError α) :
    Option PyVal → Except FieldError (Option α)
  | Option.none => .ok d
  | some .none => .ok Option.none
  | some v => (rd v).map some

/-- `Summary.token_count : int = Field("A token_count is required")`: a
present value validates as `int` (`Sum.inl`); an absent key silently
becomes the unvalidated string default (`Sum.inr`). -/
def readIntWithStrDefault (e f d : String) :
    Option PyVal → Except FieldError (Int ⊕ String)
  | Option.none => .ok (Sum.inr d)
  | some v => (readIntVal e f v).map Sum.inl

/-- Validate every element of a `List[float]` value. -/
def readFloats (e f : String) : PyList → Except FieldError (List ℚ)
  | .nil => .ok []
  | .cons h t => do
    let q ← readFloatVal e f h
    let qs ← readFloats e f t
    return q :: qs

/-- Validate a present value for a `List[float]` field. -/
def readEmbeddingVal (e f : String) : PyVal → Except FieldError (List ℚ)
  | .list xs => readFloats e f xs
  | _ => .error (.typeMismatch e f)

/-! ## Serialization helpers (`.dict()` output of one field) -/

def pyOfOptStr : Option String → PyVal
  | Option.none => .none
  | some s => .str s

def pyOfOptInt : Option Int → PyVal
  | Option.none => .none
  | some n => .int n

def pyOfOptFloat : Option ℚ → PyVal
  | Option.none => .none
  | some q => .float q

def pyOfOptBool : Option Bool → PyVal
  | Option.none => .none
  | some b => .bool b

def pyOfOptMeta : Option JObj → PyVal
  | Option.none => .none
  | some m => .dict m.toPy

def pyOfFloats : List ℚ → PyList
  | [] => .nil
  | q :: qs => .cons (.float q) (pyOfFloats qs)

def pyOfOptEmbedding : Option (List ℚ) → PyVal
  | Option.none => .none
  | some qs => .list (pyOfFloats qs)

/-! ## `Summary` -/

/-- pydantic `.dict()` on a `Summary`: every field, in declaration order;
the stored `token_count` value is emitted as-is (an `int`, or the
unvalidated string default). -/
def Summary.dict (s : Summary) : PyDict :=
  .cons "uuid" (.str s.uuid)
    (.cons "created_at" (.str s.created_at)
      (.cons "content" (.str s.content)
        (.cons "recent_message_uuid" (.str s.recent_message_uuid)
          (.cons "token_count"
            (match s.token_count with
             | Sum.inl n => .int n
             | Sum.inr d => .str d) .nil))))

/-- `Summary.to_dict` from `models.py`: returns `self.dict()`. -/
def Summary.to_dict (s : Summary) : PyDict := s.dict

/-- `Summary(**mapping)`: every field has a placeholder-string declared
default, so nothing is required; only present values are validated. -/
def Summary.ofDict (kvs : PyDict) : Except FieldError Summary := do
  let uuid ← readWithDefault "A uuid is required"
    (readStrVal "Summary" "uuid") (kvs.lookup "uuid")
  let created_at ← readWithDefault "A created_at is required"
    (readStrVal "Summary" "created_at") (kvs.lookup "created_at")
  let content ← readWithDefault "Content is required"
    (readStrVal "Summary" "content") (kvs.lookup "content")
  let recent_message_uuid ← readWithDefault "A recent_message_uuid is required"
    (readStrVal "Summary" "recent_message_uuid") (kvs.lookup "recent_message_uuid")
  let token_count ← readIntWithStrDefault "Summary" "token_count"
    "A token_count is required" (kvs.lookup "token_count")
  return { uuid, created_at, content, recent_message_uuid, token_count }

/-! ## `Message` -/

/-- pydantic `.dict()` on a `Message`. -/
def Message.dict (m : Message) : PyDict :=
  .cons "role" (.str m.role)
    (.cons "content" (.str m.content)
      (.cons "uuid" (pyOfOptStr m.uuid)
        (.cons "created_at" (pyOfOptStr m.created_at)
          (.cons "token_count" (pyOfOptInt m.token_count)
            (.cons "metadata" (pyOfOptMeta m.metadata) .nil)))))

/-- `Message.to_dict` from `models.py`: returns `self.dict()`. -/
def Message.to_dict (m : Message) : PyDict := m.dict

/-- `Message(**mapping)`: `role`/`content` have placeholder-string
declared defaults (so they are not actually required); the rest default
to `None`. -/
def Message.ofDict (kvs : PyDict) : Except FieldError Message := do
  let role ← readWithDefault "A role is required"
    (readStrVal "Message" "role") (kvs.lookup "role")
  let content ← readWithDefault "Content is required"
    (readStrVal "Message" "content") (kvs.lookup "content")
  let uuid ← readOptWith Option.none
    (readStrVal "Message" "uuid") (kvs.lookup "uuid")
  let created_at ← readOptWith Option.none
    (readStrVal "Message" "created_at") (kvs.lookup "created_at")
  let token_count ← readOptWith Option.none
    (readIntVal "Message" "token_count") (kvs.lookup "token_count")
  let metadata ← readOptWith Option.none
    (readMetaVal "Message" "metadata") (kvs.lookup "metadata")
  return { role, content, uuid, created_at, token_count, metadata }

/-! ## `Memory` -/

/-- Validate one element of a `List[Message]` value: a mapping is
validated as a `Message`; an actual `Message` instance passes through. -/
def readMessageVal (e f : String) : PyVal → Except FieldError Message
  | .dict kvs => Message.ofDict kvs
  | .msgObj m => .ok m
  | _ => .error (.typeMismatch e f)

/-- Validate every element of a `List[Message]` value. -/
def readMessages (e f : String) : PyList → Except FieldError (List Message)
  | .nil => .ok []
  | .cons h t => do
    let m ← readMessageVal e f h
    let ms ← readMessages e f t
    return m :: ms

/-- Validate a present value for a `List[Message]` field. -/
def readMessagesVal (e f : String) : PyVal → Except FieldError (List Message)
  | .list xs => readMessages e f xs
  | _ => .error (.typeMismatch e f)

/-- Validate a present value for an `Optional[Summary]` field. -/
def readSummaryVal (e f : String) : PyVal → Except FieldError Summary
  | .dict kvs => Summary.ofDict kvs
  | .sumObj s => .ok s
  | _ => .error (.typeMismatch e f)

/-- `.dict()` of a `List[Message]` field: each nested model becomes a
plain mapping. -/
def pyOfMessages : List Message → PyList
  | [] => .nil
  | m :: ms => .cons (.dict m.dict) (pyOfMessages ms)

/-- `.dict()` of an `Optional[Summary]` field. -/
def pyOfOptSummary : Option Summary → PyVal
  | Option.none => .none
  | some s => .dict s.dict

/-- pydantic `.dict()` on a `Memory`: nested `Message`s and the nested
`Summary` are recursively converted to plain mappings. -/
def Memory.dict (m : Memory) : PyDict :=
  .cons "messages" (.list (pyOfMessages m.messages))
    (.cons "metadata" (pyOfOptMeta m.metadata)
      (.cons "summary" (pyOfOptSummary m.summary)
        (.cons "uuid" (pyOfOptStr m.uuid)
          (.cons "created_at" (pyOfOptStr m.created_at)
            (.cons "token_count" (pyOfOptInt m.token_count) .nil)))))

/-- `Memory.to_dict` from `models.py`: returns `self.dict()`. -/
def Memory.to_dict (m : Memory) : PyDict := m.dict

/-- `Memory(**mapping)`: `messages` defaults to the empty list; all
other fields default to `None`. -/
def Memory.ofDict (kvs : PyDict) : Except FieldError Memory := do
  let messages ← readWithDefault []
    (readMessagesVal "Memory" "messages") (kvs.lookup "messages")
  let metadata ← readOptWith Option.none
    (readMetaVal "Memory" "metadata") (kvs.lookup "metadata")
  let summary ← readOptWith Option.none
    (readSummaryVal "Memory" "summary") (kvs.lookup "summary")
  let uuid ← readOptWith Option.none
    (readStrVal "Memory" "uuid") (kvs.lookup "uuid")
  let created_at ← readOptWith Option.none
    (readStrVal "Memory" "created_at") (kvs.lookup "created_at")
  let token_count ← readOptWith Option.none
    (readIntVal "Memory" "token_count") (kvs.lookup "token_count")
  return { messages, metadata, summary, uuid, created_at, token_count }

/-! ## `Session` -/

/-- pydantic `.dict()` on a `Session`. -/
def Session.dict (s : Session) : PyDict :=
  .cons "uuid" (pyOfOptStr s.uuid)
    (.cons "created_at" (pyOfOptStr s.created_at)
      (.cons "updated_at" (pyOfOptStr s.updated_at)
        (.cons "deleted_at" (pyOfOptStr s.deleted_at)
          (.cons "session_id" (.str s.session_id)
            (.cons "metadata" (.dict s.metadata.toPy) .nil)))))

/-- `Session(**mapping)`: `session_id` and `metadata` are required (no
default); the server fields default to `None`. -/
def Session.ofDict (kvs : PyDict) : Except FieldError Session := do
  let uuid ← readOptWith Option.none
    (readStrVal "Session" "uuid") (kvs.lookup "uuid")
  let created_at ← readOptWith Option.none
    (readStrVal "Session" "created_at") (kvs.lookup "created_at")
  let updated_at ← readOptWith Option.none
    (readStrVal "Session" "updated_at") (kvs.lookup "updated_at")
  let deleted_at ← readOptWith Option.none
    (readStrVal "Session" "deleted_at") (kvs.lookup "deleted_at")
  let session_id ← readReq "Session" "session_id"
    (readStrVal "Session" "session_id") (kvs.lookup "session_id")
  let metadata ← readReq "Session" "metadata"
    (readMetaVal "Session" "metadata") (kvs.lookup "metadata")
  return { uuid, created_at, updated_at, deleted_at, session_id, metadata }

/-! ## `MemorySearchPayload` -/

/-- pydantic `.dict()` on a `MemorySearchPayload`. -/
def MemorySearchPayload.dict (p : MemorySearchPayload) : PyDict :=
  .cons "text" (.str p.text)
    (.cons "metadata" (pyOfOptMeta p.metadata) .nil)

/-- `MemorySearchPayload(**mapping)`: `text` has a placeholder-string
declared default (so it is not actually required); `metadata` defaults
to `None`. -/
def MemorySearchPayload.ofDict (kvs : PyDict) :
    Except FieldError MemorySearchPayload := do
  let text ← readWithDefault "A text is required"
    (readStrVal "MemorySearchPayload" "text") (kvs.lookup "text")
  let metadata ← readOptWith Option.none
    (readMetaVal "MemorySearchPayload" "metadata") (kvs.lookup "metadata")
  return { text, metadata }

/-! ## `MemorySearchResult` -/

/-- pydantic `.dict()` on a `MemorySearchResult`. -/
def MemorySearchResult.dict (r : MemorySearchResult) : PyDict :=
  .cons "message" (pyOfOptMeta r.message)
    (.cons "metadata" (pyOfOptMeta r.metadata)
      (.cons "summary" (pyOfOptStr r.summary)
        (.cons "dist" (pyOfOptFloat r.dist) .nil)))

/-- `MemorySearchResult(**mapping)`: every field defaults to `None`;
`message` is validated as a loose mapping, not as a `Message`. -/
def MemorySearchResult.ofDict (kvs : PyDict) :
    Except FieldError MemorySearchResult := do
  let message ← readOptWith Option.none
    (readMetaVal "MemorySearchResult" "message") (kvs.lookup "message")
  let metadata ← readOptWith Option.none
    (readMetaVal "MemorySearchResult" "metadata") (kvs.lookup "metadata")
  let summary ← readOptWith Option.none
    (readStrVal "MemorySearchResult" "summary") (kvs.lookup "summary")
  let dist ← readOptWith Option.none
    (readFloatVal "MemorySearchResult" "dist") (kvs.lookup "dist")
  return { message, metadata, summary, dist }

/-! ## `Document` -/

/-- pydantic `.dict()` on a `Document`. -/
def Document.dict (d : Document) : PyDict :=
  .cons "uuid" (pyOfOptStr d.uuid)
    (.cons "created_at" (pyOfOptStr d.created_at)
      (.cons "updated_at" (pyOfOptStr d.updated_at)
        (.cons "deleted_at" (pyOfOptStr d.deleted_at)
          (.cons "document_id" (pyOfOptStr d.document_id)
            (.cons "content" (pyOfOptStr d.content)
              (.cons "metadata" (pyOfOptMeta d.metadata)
                (.cons "embedding" (pyOfOptEmbedding d.embedding) .nil)))))))

/-- `Document.to_dict` from `models.py`: returns `self.dict()`. -/
def Document.to_dict (d : Document) : PyDict := d.dict

/-- `Document(**mapping)`: everything optional; `metadata` defaults to an
explicit empty mapping (`default_factory=dict`). -/
def Document.ofDict (kvs : PyDict) : Except FieldError Document := do
  let uuid ← readOptWith Option.none
    (readStrVal "Document" "uuid") (kvs.lookup "uuid")
  let created_at ← readOptWith Option.none
    (readStrVal "Document" "created_at") (kvs.lookup "created_at")
  let updated_at ← readOptWith Option.none
    (readStrVal "Document" "updated_at") (kvs.lookup "updated_at")
  let deleted_at ← readOptWith Option.none
    (readStrVal "Document" "deleted_at") (kvs.lookup "deleted_at")
  let document_id ← readOptWith Option.none
    (readStrVal "Document" "document_id") (kvs.lookup "document_id")
  let content ← readOptWith Option.none
    (readStrVal "Document" "content") (kvs.lookup "content")
  let metadata ← readOptWith (some JObj.nil)
    (readMetaVal "Document" "metadata") (kvs.lookup "metadata")
  let embedding ← readOptWith Option.none
    (readEmbeddingVal "Document" "embedding") (kvs.lookup "embedding")
  return { uuid, created_at, updated_at, deleted_at, document_id, content,
           metadata, embedding }

/-! ## `DocumentCollection` -/

/-- pydantic `.dict()` on a `DocumentCollection`. -/
def DocumentCollection.dict (c : DocumentCollection) : PyDict :=
  .cons "created_at" (pyOfOptStr c.created_at)
    (.cons "updated_at" (pyOfOptStr c.updated_at)
      (.cons "deleted_at" (pyOfOptStr c.deleted_at)
        (.cons "name" (.str c.name)
          (.cons "description" (pyOfOptStr c.description)
            (.cons "metadata" (pyOfOptMeta c.metadata)
              (.cons "embedding_model_name" (pyOfOptStr c.embedding_model_name)
                (.cons "embedding_dimensions" (pyOfOptInt c.embedding_dimensions)
                  (.cons "distance_function" (pyOfOptStr c.distance_function)
                    (.cons "is_normalized" (pyOfOptBool c.is_normalized)
                      .nil)))))))))

/-- `DocumentCollection.to_dict` from `models.py`: returns `self.dict()`. -/
def DocumentCollection.to_dict (c : DocumentCollection) : PyDict := c.dict

/-- `DocumentCollection(**mapping)`: `name` is required (no default);
`metadata` defaults to an explicit empty mapping; the rest default to
`None`. -/
def DocumentCollection.ofDict (kvs : PyDict) :
    Except FieldError DocumentCollection := do
  let created_at ← readOptWith Option.none
    (readStrVal "DocumentCollection" "created_at") (kvs.lookup "created_at")
  let updated_at ← readOptWith Option.none
    (readStrVal "DocumentCollection" "updated_at") (kvs.lookup "updated_at")
  let deleted_at ← readOptWith Option.none
    (readStrVal "DocumentCollection" "deleted_at") (kvs.lookup "deleted_at")
  let name ← readReq "DocumentCollection" "name"
    (readStrVal "DocumentCollection" "name") (kvs.lookup "name")
  let description ← readOptWith Option.none
    (readStrVal "DocumentCollection" "description") (kvs.lookup "description")
  let metadata ← readOptWith (some JObj.nil)
    (readMetaVal "DocumentCollection" "metadata") (kvs.lookup "metadata")
  let embedding_model_name ← readOptWith Option.none
    (readStrVal "DocumentCollection" "embedding_model_name")
    (kvs.lookup "embedding_model_name")
  let embedding_dimensions ← readOptWith Option.none
    (readIntVal "DocumentCollection" "embedding_dimensions")
    (kvs.lookup "embedding_dimensions")
  let distance_function ← readOptWith Option.none
    (readStrVal "DocumentCollection" "distance_function")
    (kvs.lookup "distance_function")
  let is_normalized ← readOptWith Option.none
    (readBoolVal "DocumentCollection" "is_normalized")
    (kvs.lookup "is_normalized")
  return { created_at, updated_at, deleted_at, name, description, metadata,
           embedding_model_name, embedding_dimensions, distance_function,
           is_normalized }

/-! ## Round-trip helper lemmas -/

@[simp] theorem except_bind_ok {ε α β : Type} (a : α) (f : α → Except ε β) :
    (Except.ok a : Except ε α) >>= f = f a := rfl

@[simp] theorem except_map_ok' {ε α β : Type} (f : α → β) (a : α) :
    Except.map f (Except.ok a : Except ε α) = .ok (f a) := rfl

mutual

/-- Embedding a wire value and reading it back is the identity. -/
theorem jvalue_toJ_toPy : ∀ j : JValue, j.toPy.toJ = some j
  | .null => rfl
  | .bool b => rfl
  | .int n => rfl
  | .float q => rfl
  | .str s => rfl
  | .arr xs => by simp [JValue.toPy, PyVal.toJ, jarr_toJ_toPy xs]
  | .obj kvs => by simp [JValue.toPy, PyVal.toJ, jobj_toJ_toPy kvs]

theorem jarr_toJ_toPy : ∀ xs : JArr, xs.toPy.toJ = some xs
  | .nil => rfl
  | .cons h t => by
    simp [JArr.toPy, PyList.toJ, jvalue_toJ_toPy h, jarr_toJ_toPy t]

theorem jobj_toJ_toPy : ∀ kvs : JObj, kvs.toPy.toJ = some kvs
  | .nil => rfl
  | .cons k v t => by
    simp [JObj.toPy, PyDict.toJ, jvalue_toJ_toPy v, jobj_toJ_toPy t]

end

@[simp] theorem readOpt_pyOfOptStr (d : Option String) (e f : String) (o : Option String) :
    readOptWith d (readStrVal e f) (some (pyOfOptStr o)) = .ok o := by
  cases o <;> rfl

@[simp] theorem readOpt_pyOfOptInt (d : Option Int) (e f : String) (o : Option Int) :
    readOptWith d (readIntVal e f) (some (pyOfOptInt o)) = .ok o := by
  cases o <;> rfl

@[simp] theorem readOpt_pyOfOptFloat (d : Option ℚ) (e f : String) (o : Option ℚ) :
    readOptWith d (readFloatVal e f) (some (pyOfOptFloat o)) = .ok o := by
  cases o <;> rfl

@[simp] theorem readOpt_pyOfOptBool (d : Option Bool) (e f : String) (o : Option Bool) :
    readOptWith d (readBoolVal e f) (some (pyOfOptBool o)) = .ok o := by
  cases o <;> rfl

@[simp] theorem readMetaVal_toPy (e f : String) (m : JObj) :
    readMetaVal e f (.dict m.toPy) = .ok m := by
  simp [readMetaVal, jobj_toJ_toPy m]

@[simp] theorem readOpt_pyOfOptMeta (d : Option JObj) (e f : String) (o : Option JObj) :
    readOptWith d (readMetaVal e f) (some (pyOfOptMeta o)) = .ok o := by
  cases o with
  | none => rfl
  | some m => simp [pyOfOptMeta, readOptWith]

theorem readFloats_pyOfFloats (e f : String) (qs : List ℚ) :
    readFloats e f (pyOfFloats qs) = .ok qs := by
  induction qs with
  | nil => rfl
  | cons q qs ih => simp [pyOfFloats, readFloats, readFloatVal, ih]

@[simp] theorem readOpt_pyOfOptEmbedding (d : Option (List ℚ)) (e f : String)
    (o : Option (List ℚ)) :
    readOptWith d (readEmbeddingVal e f) (some (pyOfOptEmbedding o)) = .ok o := by
  cases o with
  | none => rfl
  | some qs =>
    simp [pyOfOptEmbedding, readOptWith, readEmbeddingVal, readFloats_pyOfFloats]

/-- Round-trip for `Session`: `Session(**s.dict())` reproduces `s` exactly. -/
theorem session_roundtrip (s : Session) : Session.ofDict s.dict = .ok s := by
  obtain ⟨u, c, up, d, sid, md⟩ := s
  simp [Session.ofDict, Session.dict, PyDict.lookup, readReq, readStrVal]

/-- Round-trip for `Summary`, for instances whose `token_count` actually
holds an integer (an instance carrying the unvalidated string default
does not re-validate). -/
theorem summary_roundtrip (s : Summary) (h : s.token_count.isLeft = true) :
    Summary.ofDict s.dict = .ok s := by
  obtain ⟨u, c, co, r, tc⟩ := s
  cases tc with
  | inr d => simp at h
  | inl n =>
    simp [Summary.ofDict, Summary.dict, PyDict.lookup, readWithDefault,
      readStrVal, readIntWithStrDefault, readIntVal]

/-- Round-trip for `Message`: `Message(**m.dict())` reproduces `m`. -/
theorem message_roundtrip (m : Message) : Message.ofDict m.dict = .ok m := by
  obtain ⟨r, c, u, ca, tc, md⟩ := m
  simp [Message.ofDict, Message.dict, PyDict.lookup, readWithDefault,
    readStrVal]

theorem readMessages_pyOfMessages (e f : String) (ms : List Message) :
    readMessages e f (pyOfMessages ms) = .ok ms := by
  induction ms with
  | nil => rfl
  | cons m ms ih =>
    simp [pyOfMessages, readMessages, readMessageVal, message_roundtrip, ih]

@[simp] theorem readMessagesVal_pyOfMessages (e f : String) (ms : List Message) :
    readMessagesVal e f (.list (pyOfMessages ms)) = .ok ms := by
  simp [readMessagesVal, readMessages_pyOfMessages]

theorem readOpt_pyOfOptSummary (d : Option Summary) (e f : String)
    (o : Option Summary) (h : ∀ s, o = some s → s.token_count.isLeft = true) :
    readOptWith d (readSummaryVal e f) (some (pyOfOptSummary o)) = .ok o := by
  cases o with
  | none => rfl
  | some s =>
    simp [pyOfOptSummary, readOptWith, readSummaryVal,
      summary_roundtrip s (h s rfl)]

/-- `Memory` instances whose optional nested `Summary` (if any) holds a
real integer `token_count`. -/
def Memory.summaryValid (m : Memory) : Prop :=
  ∀ s, m.summary = some s → s.token_count.isLeft = true

/-- Round-trip for `Memory`: `Memory(**m.dict())` reproduces `m`,
messages in order. -/
theorem memory_roundtrip (m : Memory) (h : m.summaryValid) :
    Memory.ofDict m.dict = .ok m := by
  obtain ⟨ms, md, su, u, ca, tc⟩ := m
  have hsu := readOpt_pyOfOptSummary Option.none "Memory" "summary" su h
  simp [Memory.ofDict, Memory.dict, PyDict.lookup, readWithDefault, hsu]

/-- Round-trip for `MemorySearchPayload`. -/
theorem payload_roundtrip (p : MemorySearchPayload) :
    MemorySearchPayload.ofDict p.dict = .ok p := by
  obtain ⟨t, md⟩ := p
  simp [MemorySearchPayload.ofDict, MemorySearchPayload.dict, PyDict.lookup,
    readWithDefault, readStrVal]

/-- Round-trip for `MemorySearchResult`. -/
theorem result_roundtrip (r : MemorySearchResult) :
    MemorySearchResult.ofDict r.dict = .ok r := by
  obtain ⟨msg, md, su, di⟩ := r
  simp [MemorySearchResult.ofDict, MemorySearchResult.dict, PyDict.lookup]

/-- Round-trip for `Document`. -/
theorem document_roundtrip (d : Document) : Document.ofDict d.dict = .ok d := by
  obtain ⟨u, ca, ua, da, di, co, md, em⟩ := d
  simp [Document.ofDict, Document.dict, PyDict.lookup]

/-- Round-trip for `DocumentCollection`. -/
theorem collection_roundtrip (c : DocumentCollection) :
    DocumentCollection.ofDict c.dict = .ok c := by
  obtain ⟨ca, ua, da, n, de, md, emn, edim, df, inorm⟩ := c
  simp [DocumentCollection.ofDict, DocumentCollection.dict, PyDict.lookup,
    readReq, readStrVal]

/-- Inversion for a successful `Except` bind. -/
theorem except_bind_eq_ok {ε α β : Type} {x : Except ε α} {f : α → Except ε β}
    {b : β} (h : x >>= f = .ok b) : ∃ a, x = .ok a ∧ f a = .ok b := by
  cases x with
  | error e =>
    rw [show ((Except.error e : Except ε α) >>= f) = .error e from rfl] at h
    cases h
  | ok a => exact ⟨a, rfl, h⟩

/-- C5 helper-free general form: a mapping with no `"messages"` key
constructs (when it constructs at all) a `Memory` with the empty list. -/
theorem memory_ofDict_no_messages_key (kvs : PyDict) (m : Memory)
    (hk : kvs.lookup "messages" = Option.none)
    (hm : Memory.ofDict kvs = .ok m) :
    m.messages = [] := by
  unfold Memory.ofDict at hm
  rw [hk] at hm
  obtain ⟨msgs, h0, hm⟩ := except_bind_eq_ok hm
  obtain ⟨md, h1, hm⟩ := except_bind_eq_ok hm
  obtain ⟨su, h2, hm⟩ := except_bind_eq_ok hm
  obtain ⟨u, h3, hm⟩ := except_bind_eq_ok hm
  obtain ⟨ca, h4, hm⟩ := except_bind_eq_ok hm
  obtain ⟨tc, h5, hm⟩ := except_bind_eq_ok hm
  cases hm
  cases h0
  rfl

/-- A mapping with no `"metadata"` key constructs a `Document` whose
metadata is the explicit empty mapping (`default_factory=dict`). -/
theorem document_ofDict_no_metadata_key (kvs : PyDict) (d : Document)
    (hk : kvs.lookup "metadata" = Option.none)
    (hd : Document.ofDict kvs = .ok d) :
    d.metadata = some JObj.nil := by
  unfold Document.ofDict at hd
  rw [hk] at hd
  obtain ⟨u, h0, hd⟩ := except_bind_eq_ok hd
  obtain ⟨ca, h1, hd⟩ := except_bind_eq_ok hd
  obtain ⟨ua, h2, hd⟩ := except_bind_eq_ok hd
  obtain ⟨da, h3, hd⟩ := except_bind_eq_ok hd
  obtain ⟨di, h4, hd⟩ := except_bind_eq_ok hd
  obtain ⟨co, h5, hd⟩ := except_bind_eq_ok hd
  obtain ⟨md, h6, hd⟩ := except_bind_eq_ok hd
  obtain ⟨em, h7, hd⟩ := except_bind_eq_ok hd
  cases hd
  cases h6
  rfl

/-- A mapping with no `"metadata"` key constructs a `DocumentCollection`
whose metadata is the explicit empty mapping (`default_factory=dict`). -/
theorem documentCollection_ofDict_no_metadata_key (kvs : PyDict)
    (c : DocumentCollection)
    (hk : kvs.lookup "metadata" = Option.none)
    (hc : DocumentCollection.ofDict kvs = .ok c) :
    c.metadata = some JObj.nil := by
  unfold DocumentCollection.ofDict at hc
  rw [hk] at hc
  obtain ⟨ca, h0, hc⟩ := except_bind_eq_ok hc
  obtain ⟨ua, h1, hc⟩ := except_bind_eq_ok hc
  obtain ⟨da, h2, hc⟩ := except_bind_eq_ok hc
  obtain ⟨n, h3, hc⟩ := except_bind_eq_ok hc
  obtain ⟨de, h4, hc⟩ := except_bind_eq_ok hc
  obtain ⟨md, h5, hc⟩ := except_bind_eq_ok hc
  obtain ⟨emn, h6, hc⟩ := except_bind_eq_ok hc
  obtain ⟨edim, h7, hc⟩ := except_bind_eq_ok hc
  obtain ⟨df, h8, hc⟩ := except_bind_eq_ok hc
  obtain ⟨inorm, h9, hc⟩ := except_bind_eq_ok hc
  cases hc
  cases h5
  rfl

/-- Serializing a `Document` whose metadata is the empty mapping emits an
explicit empty-mapping value under the `"metadata"` key. -/
theorem document_dict_metadata_key (d : Document)
    (h : d.metadata = some JObj.nil) :
    (Document.dict d).lookup "metadata" = some (.dict .nil) := by
  simp [Document.dict, PyDict.lookup, h, pyOfOptMeta, JObj.toPy]

/-- Serializing a `DocumentCollection` whose metadata is the empty
mapping emits an explicit empty-mapping value under `"metadata"`. -/
theorem documentCollection_dict_metadata_key (c : DocumentCollection)
    (h : c.metadata = some JObj.nil) :
    (DocumentCollection.dict c).lookup "metadata" = some (.dict .nil) := by
  simp [DocumentCollection.dict, PyDict.lookup, h, pyOfOptMeta, JObj.toPy]

/-! ## Plainness of serialized output (no typed entity objects) -/

mutual

theorem jvalue_toPy_isPlain : ∀ j : JValue, j.toPy.isPlain = true
  | .null => rfl
  | .bool b => rfl
  | .int n => rfl
  | .float q => rfl
  | .str s => rfl
  | .arr xs => by simp [JValue.toPy, PyVal.isPlain, jarr_toPy_isPlain xs]
  | .obj kvs => by simp [JValue.toPy, PyVal.isPlain, jobj_toPy_isPlain kvs]

theorem jarr_toPy_isPlain : ∀ xs : JArr, xs.toPy.isPlain = true
  | .nil => rfl
  | .cons h t => by
    simp [JArr.toPy, PyList.isPlain, jvalue_toPy_isPlain h, jarr_toPy_isPlain t]

theorem jobj_toPy_isPlain : ∀ kvs : JObj, kvs.toPy.isPlain = true
  | .nil => rfl
  | .cons k v t => by
    simp [JObj.toPy, PyDict.isPlain, jvalue_toPy_isPlain v, jobj_toPy_isPlain t]

end

theorem pyOfOptStr_isPlain (o : Option String) : (pyOfOptStr o).isPlain = true := by
  cases o <;> rfl

theorem pyOfOptInt_isPlain (o : Option Int) : (pyOfOptInt o).isPlain = true := by
  cases o <;> rfl

theorem pyOfOptMeta_isPlain (o : Option JObj) : (pyOfOptMeta o).isPlain = true := by
  cases o with
  | none => rfl
  | some m => simp [pyOfOptMeta, PyVal.isPlain, jobj_toPy_isPlain]

theorem summary_dict_isPlain (s : Summary) :
    (PyVal.dict s.dict).isPlain = true := by
  obtain ⟨u, c, co, r, tc⟩ := s
  cases tc <;> simp [Summary.dict, PyVal.isPlain, PyDict.isPlain]

theorem message_dict_isPlain (m : Message) :
    (PyVal.dict m.dict).isPlain = true := by
  obtain ⟨r, c, u, ca, tc, md⟩ := m
  simp [Message.dict, PyVal.isPlain, PyDict.isPlain, pyOfOptStr_isPlain,
    pyOfOptInt_isPlain, pyOfOptMeta_isPlain]

theorem pyOfMessages_isPlain (ms : List Message) :
    (pyOfMessages ms).isPlain = true := by
  induction ms with
  | nil => rfl
  | cons m ms ih =>
    simp [pyOfMessages, PyList.isPlain, message_dict_isPlain m, ih]

theorem pyOfOptSummary_isPlain (o : Option Summary) :
    (pyOfOptSummary o).isPlain = true := by
  cases o with
  | none => rfl
  | some s => exact summary_dict_isPlain s

/-! ## Sample instances (used by the witnesses of the quantified claims) -/

def sampleMessage : Message :=
  { role := "user", content := "hello", uuid := some "msg-1",
    created_at := some "2023-05-01T00:00:00Z", token_count := some 3,
    metadata := some (.cons "k" (.str "v") .nil) }

def sampleMessage2 : Message :=
  { role := "assistant", content := "hi there" }

def sampleMessage3 : Message :=
  { role := "user", content := "bye", token_count := some 1 }

def sampleSummary : Summary :=
  { uuid := "sum-1", created_at := "2023-05-01T00:00:10Z",
    content := "a digest", recent_message_uuid := "msg-1",
    token_count := Sum.inl 7 }

def sampleMemory : Memory :=
  { messages := [sampleMessage, sampleMessage2, sampleMessage3],
    metadata := some .nil, summary := some sampleSummary,
    token_count := some 11 }

def sampleSession : Session :=
  { uuid := some "u-1", session_id := "s1",
    metadata := .cons "a" (.int 1) .nil }

def samplePayload : MemorySearchPayload :=
  { text := "find me", metadata := some (.cons "where" (.obj .nil) .nil) }

def sampleResult : MemorySearchResult :=
  { message := some (.cons "role" (.str "user")
      (.cons "content" (.str "hi") .nil)),
    dist := some (3 / 25 : ℚ) }

def sampleDocument : Document :=
  { document_id := some "doc-1", content := some "text",
    embedding := some [1 / 2, -2 / 3] }

def sampleCollection : DocumentCollection :=
  { name := "col", embedding_dimensions := some 2,
    distance_function := some "cosine", is_normalized := some true }

def orderedMemory : Memory :=
  { messages := [sampleMessage, sampleMessage2, sampleMessage3] }

/-! ## The claims -/

/-- C1: round-trip law.  For every entity type and every valid
constructed instance `e`, constructing an entity from the mapping
produced by serializing `e` yields a value equal to `e` in every field.
(Validity: a `Summary` — standalone or nested in a `Memory` — must carry
a real integer `token_count`, not the unvalidated placeholder-string
default; all other instances are unrestricted.) -/
theorem roundtrip_law_all_entities
    (se : Session) (ms : Message) (su : Summary) (me : Memory)
    (sp : MemorySearchPayload) (sr : MemorySearchResult)
    (d : Document) (dc : DocumentCollection)
    (hsu : su.token_count.isLeft = true)
    (hme : me.summaryValid) :
    Session.ofDict se.dict = .ok se ∧
    Message.ofDict ms.dict = .ok ms ∧
    Summary.ofDict su.dict = .ok su ∧
    Memory.ofDict me.dict = .ok me ∧
    MemorySearchPayload.ofDict sp.dict = .ok sp ∧
    MemorySearchResult.ofDict sr.dict = .ok sr ∧
    Document.ofDict d.dict = .ok d ∧
    DocumentCollection.ofDict dc.dict = .ok dc :=
  ⟨session_roundtrip se, message_roundtrip ms, summary_roundtrip su hsu,
   memory_roundtrip me hme, payload_roundtrip sp,
   result_roundtrip sr, document_roundtrip d,
   collection_roundtrip dc⟩

/-- C1 witness: the round-trip law applied at concrete instances of all
eight entity types. -/
theorem roundtrip_law_all_entities_witness :
    Session.ofDict sampleSession.dict = .ok sampleSession ∧
    Message.ofDict sampleMessage.dict = .ok sampleMessage ∧
    Summary.ofDict sampleSummary.dict = .ok sampleSummary ∧
    Memory.ofDict sampleMemory.dict = .ok sampleMemory ∧
    MemorySearchPayload.ofDict samplePayload.dict = .ok samplePayload ∧
    MemorySearchResult.ofDict sampleResult.dict = .ok sampleResult ∧
    Document.ofDict sampleDocument.dict = .ok sampleDocument ∧
    DocumentCollection.ofDict sampleCollection.dict = .ok sampleCollection :=
  roundtrip_law_all_entities sampleSession sampleMessage sampleSummary
    sampleMemory samplePayload sampleResult sampleDocument sampleCollection
    rfl (fun s hs => by cases hs; rfl)

/-- C2 (refuted by the code): constructing a `Summary` from a mapping
missing `token_count` does NOT fail — pydantic v1 treats the positional
`Field` argument as an unvalidated default, so `Summary(**{})` succeeds
with every field, `token_count` included, silently set to its declared
placeholder text. -/
theorem summary_missing_token_count_silently_defaults :
    Summary.ofDict .nil =
      .ok { uuid := "A uuid is required",
            created_at := "A created_at is required",
            content := "Content is required",
            recent_message_uuid := "A recent_message_uuid is required",
            token_count := Sum.inr "A token_count is required" } := rfl

/-- C3 (refuted by the code): constructing a `Message` without `role`
and/or without `content` is NOT a construction error — the declared
placeholder-string defaults are silently substituted for the missing
fields. -/
theorem message_missing_role_or_content_silently_defaults :
    Message.ofDict .nil =
      .ok { role := "A role is required", content := "Content is required" } ∧
    Message.ofDict (.cons "content" (.str "hi") .nil) =
      .ok { role := "A role is required", content := "hi" } ∧
    Message.ofDict (.cons "role" (.str "user") .nil) =
      .ok { role := "user", content := "Content is required" } :=
  ⟨rfl, rfl, rfl⟩

/-- C4 (refuted by the code): constructing a `MemorySearchPayload` from a
mapping lacking `text` does NOT fail — the placeholder-string default
`"A text is required"` is silently substituted. -/
theorem payload_missing_text_silently_defaults :
    MemorySearchPayload.ofDict .nil =
      .ok { text := "A text is required", metadata := Option.none } := rfl

/-- C5: constructing a `Memory` from a mapping that lacks the `messages`
key yields a `Memory` whose `messages` field is the empty list (never
absent or null — the field's type has no absent state). -/
theorem memory_default_fill_messages (kvs : PyDict) (m : Memory)
    (hk : kvs.lookup "messages" = Option.none)
    (hm : Memory.ofDict kvs = .ok m) :
    m.messages = [] :=
  memory_ofDict_no_messages_key kvs m hk hm

/-- C5 witness: a concrete mapping without `messages` constructs a
`Memory` whose `messages` is `[]`. -/
theorem memory_default_fill_messages_witness :
    Memory.ofDict (.cons "token_count" (.int 5) .nil) =
      .ok { messages := [], token_count := some 5 } ∧
    ({ messages := [], token_count := some 5 } : Memory).messages = [] :=
  ⟨rfl, memory_default_fill_messages (.cons "token_count" (.int 5) .nil)
    { messages := [], token_count := some 5 } rfl rfl⟩

/-- C6: constructing a `Document` or a `DocumentCollection` from a
mapping without a `metadata` key yields an instance whose metadata is the
empty mapping (not `None`), and serializing it emits an explicit
empty-mapping value under the `metadata` key. -/
theorem metadata_default_law (dk ck : PyDict)
    (d : Document) (c : DocumentCollection)
    (hdk : dk.lookup "metadata" = Option.none)
    (hck : ck.lookup "metadata" = Option.none)
    (hd : Document.ofDict dk = .ok d)
    (hc : DocumentCollection.ofDict ck = .ok c) :
    d.metadata = some JObj.nil ∧
    (Document.dict d).lookup "metadata" = some (.dict .nil) ∧
    c.metadata = some JObj.nil ∧
    (DocumentCollection.dict c).lookup "metadata" = some (.dict .nil) := by
  have h1 := document_ofDict_no_metadata_key dk d hdk hd
  have h2 := documentCollection_ofDict_no_metadata_key ck c hck hc
  exact ⟨h1, document_dict_metadata_key d h1, h2,
    documentCollection_dict_metadata_key c h2⟩

/-- C6 witness: the metadata default law at the empty mapping (for
`Document`) and at a name-only mapping (for `DocumentCollection`). -/
theorem metadata_default_law_witness :
    ({} : Document).metadata = some JObj.nil ∧
    (Document.dict {}).lookup "metadata" = some (.dict .nil) ∧
    ({ name := "col" } : DocumentCollection).metadata = some JObj.nil ∧
    (DocumentCollection.dict { name := "col" }).lookup "metadata" =
      some (.dict .nil) :=
  metadata_default_law .nil (.cons "name" (.str "col") .nil)
    {} { name := "col" } rfl rfl rfl rfl

/-- C7: serializing a `Memory` and constructing a `Memory` back yields
the `messages` sequence unchanged — same elements, same order, nothing
dropped, reordered or deduplicated — for every messages sequence (the
nested summary, when present, must be valid for construction to
succeed). -/
theorem memory_ordering_preserved (me : Memory) (h : me.summaryValid) :
    ∃ me', Memory.ofDict me.dict = .ok me' ∧ me'.messages = me.messages :=
  ⟨me, memory_roundtrip me h, rfl⟩

/-- C7 witness: a `Memory` with messages `[m1, m2, m3]` round-trips to
exactly `[m1, m2, m3]`. -/
theorem memory_ordering_preserved_witness :
    ∃ me', Memory.ofDict orderedMemory.dict = .ok me' ∧
      me'.messages = [sampleMessage, sampleMessage2, sampleMessage3] :=
  memory_ordering_preserved orderedMemory (fun s hs => nomatch hs)

/-- C8: `Session(session_id="s1", metadata={})`, serialized and fed back
through construction, yields a `Session` with `session_id = "s1"`,
empty metadata, and `uuid`/`created_at`/`updated_at`/`deleted_at` all
unset. -/
theorem session_end_to_end :
    ∃ s : Session,
      Session.ofDict
        (.cons "session_id" (.str "s1")
          (.cons "metadata" (.dict .nil) .nil)) = .ok s ∧
      Session.ofDict s.dict = .ok s ∧
      s.session_id = "s1" ∧ s.metadata = JObj.nil ∧
      s.uuid = Option.none ∧ s.created_at = Option.none ∧
      s.updated_at = Option.none ∧ s.deleted_at = Option.none :=
  ⟨{ session_id := "s1", metadata := .nil },
   rfl, session_roundtrip _, rfl, rfl, rfl, rfl, rfl, rfl⟩

/-- C9: `Memory.to_dict` recursively converts the nested `Message`s and
the nested `Summary` (when present) into plain mappings: the resulting
value contains no typed entity object at any depth. -/
theorem memory_to_dict_is_plain (m : Memory) :
    (PyVal.dict m.to_dict).isPlain = true := by
  obtain ⟨ms, md, su, u, ca, tc⟩ := m
  simp [Memory.to_dict, Memory.dict, PyVal.isPlain, PyDict.isPlain,
    pyOfMessages_isPlain, pyOfOptMeta_isPlain, pyOfOptSummary_isPlain,
    pyOfOptStr_isPlain, pyOfOptInt_isPlain]

/-- C10: constructing a `MemorySearchResult` from the empty mapping
succeeds, with `message`, `metadata`, `summary` and `dist` all `None`. -/
theorem search_result_all_fields_optional :
    MemorySearchResult.ofDict .nil =
      .ok { message := Option.none, metadata := Option.none,
            summary := Option.none, dist := Option.none } := rfl
